import Mathlib

/-!
# Verification of the aic-embeddings-demo search controller and proxy forwarder

A shallow embedding of the two source files of the repository:

* `src/app/page.tsx` — the search controller (`handleSearch` in
  `ArtworkSearchContent`): validates the input state, builds the upstream
  path for one of three query kinds, dispatches a fetch to the local proxy
  route, and updates the UI state (`results`, `error`, `debugUrl`,
  `loading`) from the response.
* `src/app/api/artwork/route.tsx` — the proxy forwarder (`GET`): reads
  `apiUrl` and `path` from the inbound query string, 400s when either is
  missing, otherwise forwards upstream and relays status/body.

JavaScript strings are modelled as Lean `String`; JSON values as the
inductive `Json` below (numeric values are modelled as integers — no claim
touches fractional numerics); the nondeterministic outcome of a network
call is an explicit argument to the embedded handler, so each handler is a
total function of its inputs and the environment's outcome.
-/

/-- JSON values, as produced by `response.json()` / `JSON.parse`.
Objects are association lists of fields; JSON numbers are modelled as
integers (no claim depends on fractional values). -/
inductive Json where
  | null
  | bool (b : Bool)
  | num (n : Int)
  | str (s : String)
  | arr (xs : List Json)
  | obj (fields : List (String × Json))

/-- First field with the given key, as JavaScript property lookup on a
plain JSON object (keys produced by `JSON.parse` are unique). -/
def lookupField : List (String × Json) → String → Option Json
  | [], _ => none
  | (k, v) :: rest, key => if k == key then some v else lookupField rest key

/-- `data.key` in JavaScript: a field of an object (`undefined`, i.e.
`none`, when absent), `undefined` on any other non-null value — property
access boxes primitives and reads through prototypes, none of which
carry `error`/`detail`/`items` — and a thrown `TypeError` on `null`,
carrying the message V8 (Node, which runs this code) produces. -/
def jsGetProp : Json → String → Except String (Option Json)
  | Json.null, key =>
    Except.error ("Cannot read properties of null (reading '" ++ key ++ "')")
  | Json.obj fields, key => Except.ok (lookupField fields key)
  | _, _ => Except.ok none

/-- Whether an object literal has the given key (`'key' in obj`). -/
def hasField (fields : List (String × Json)) (key : String) : Bool :=
  fields.any (fun p => p.fst == key)

/-- JavaScript truthiness of a JSON value. -/
def jsTruthy : Json → Bool
  | Json.null => false
  | Json.bool b => b
  | Json.num n => n != 0
  | Json.str s => s != ""
  | Json.arr _ => true
  | Json.obj _ => true

/-- Truthiness of a possibly-`undefined` value (`undefined` is falsy). -/
def jsTruthyOpt : Option Json → Bool
  | none => false
  | some j => jsTruthy j

mutual

/-- `String(v)` — the JavaScript string coercion applied by
`new Error(v)` to a non-string argument. -/
def jsString : Json → String
  | Json.null => "null"
  | Json.bool b => if b then "true" else "false"
  | Json.num n => toString n
  | Json.str s => s
  | Json.obj _ => "[object Object]"
  | Json.arr xs => jsArrString xs

/-- `Array.prototype.toString`: elements joined with `","`, with `null`
rendered as the empty string. -/
def jsArrString : List Json → String
  | [] => ""
  | x :: rest =>
    (match x with
     | Json.null => ""
     | y => jsString y)
    ++ (match rest with
        | [] => ""
        | _ => "," ++ jsArrString rest)

end

/-- JavaScript `String.prototype.trim` whitespace (ASCII whitespace, NBSP,
BOM and the Unicode space separators). -/
def isJsWhitespace (c : Char) : Bool :=
  let n := c.toNat
  (9 ≤ n && n ≤ 13) || n == 32 || n == 160 || n == 65279 ||
  n == 5760 || (8192 ≤ n && n ≤ 8202) || n == 8232 || n == 8233 ||
  n == 8239 || n == 8287 || n == 12288

/-- `s.trim()`: strip leading and trailing whitespace. -/
def jsTrim (s : String) : String :=
  String.mk (((s.data.dropWhile isJsWhitespace).reverse.dropWhile isJsWhitespace).reverse)

/-- UTF-8 encoding of one character, as a list of byte values. -/
def utf8Bytes (c : Char) : List Nat :=
  let n := c.toNat
  if n < 128 then [n]
  else if n < 2048 then [192 + n / 64, 128 + n % 64]
  else if n < 65536 then [224 + n / 4096, 128 + (n / 64) % 64, 128 + n % 64]
  else [240 + n / 262144, 128 + (n / 4096) % 64, 128 + (n / 64) % 64, 128 + n % 64]

/-- Upper-case hexadecimal digit for a value below 16. -/
def hexDigit (n : Nat) : Char :=
  if n < 10 then Char.ofNat (48 + n) else Char.ofNat (55 + n)

/-- `%XX` escape of one byte, upper-case as `encodeURIComponent` emits. -/
def percentByte (b : Nat) : String :=
  String.mk ['%', hexDigit (b / 16), hexDigit (b % 16)]

/-- The characters `encodeURIComponent` leaves unescaped:
`A-Z a-z 0-9 - _ . ! ~ * ' ( )`. -/
def isUriUnreserved (c : Char) : Bool :=
  let n := c.toNat
  (65 ≤ n && n ≤ 90) || (97 ≤ n && n ≤ 122) || (48 ≤ n && n ≤ 57) ||
  n == 45 || n == 95 || n == 46 || n == 33 || n == 126 ||
  n == 42 || n == 39 || n == 40 || n == 41

/-- `encodeURIComponent`: unreserved characters pass through, every other
character becomes the `%XX` escapes of its UTF-8 bytes. -/
def encodeURIComponent (s : String) : String :=
  String.join (s.data.map (fun c =>
    if isUriUnreserved c then String.mk [c]
    else String.join ((utf8Bytes c).map percentByte)))

/-- `apiUrl.replace(/\/$/, '')`: drop a single trailing slash. -/
def stripTrailingSlash (s : String) : String :=
  match s.data.reverse with
  | [] => s
  | c :: rest => if c == '/' then String.mk rest.reverse else s

/-!
## The proxy forwarder (`src/app/api/artwork/route.tsx`, `GET`)

The handler reads `searchParams.get('apiUrl')` and
`searchParams.get('path')` (each `string | null`), 400s on a falsy
`path`, then on a falsy `apiUrl`, then fetches `baseUrl + path` and
parses the body. The whole body sits in one `try`, so a throwing fetch
or `response.json()` lands in the `catch`, which answers 500.
-/

/-- The two query parameters the route reads; `none` is a `null` from
`searchParams.get`. -/
structure ProxyRequest where
  apiUrl : Option String
  path : Option String

/-- JavaScript falsiness of a `string | null` value: `null` and the empty
string are falsy. -/
def jsFalsyStr : Option String → Bool
  | none => true
  | some s => s == ""

/-- Outcome of the route's outbound `fetch` + `response.json()`:
the upstream answered and its body parsed as JSON, or the body failed to
parse, or the fetch itself threw. -/
inductive UpstreamOutcome where
  | success (status : Nat) (body : Json)
  | parseFailure (status : Nat)
  | fetchFailure

/-- `Response.ok`: status in the inclusive range 200–299. -/
def responseOk (status : Nat) : Bool :=
  200 ≤ status && status ≤ 299

/-- What one invocation of the route produces: the HTTP status and JSON
body of its `NextResponse`, and whether the outbound call was issued. -/
structure ProxyResult where
  status : Nat
  body : Json
  outboundIssued : Bool

/-- The `GET` handler of `src/app/api/artwork/route.tsx`: missing/empty
`path` → 400 `Path is required`; then missing/empty `apiUrl` → 400
`API URL is required`; otherwise forward and relay — `response.ok` maps
to a default-status (200) `NextResponse.json(data)`, a non-ok status is
relayed with the body, and any throw is caught as a 500
`Failed to fetch results`. Total: no exception escapes. -/
def routeGET (req : ProxyRequest) (upstream : UpstreamOutcome) : ProxyResult :=
  if jsFalsyStr req.path then
    ⟨400, Json.obj [("error", Json.str "Path is required")], false⟩
  else if jsFalsyStr req.apiUrl then
    ⟨400, Json.obj [("error", Json.str "API URL is required")], false⟩
  else
    match upstream with
    | UpstreamOutcome.success status body =>
      if responseOk status then ⟨200, body, true⟩ else ⟨status, body, true⟩
    | UpstreamOutcome.parseFailure _ =>
      ⟨500, Json.obj [("error", Json.str "Failed to fetch results")], true⟩
    | UpstreamOutcome.fetchFailure =>
      ⟨500, Json.obj [("error", Json.str "Failed to fetch results")], true⟩

/-!
## Query-string parsing (`new URL(request.url).searchParams.get(...)`)

Enough of the WHATWG URL model to read back the request URL the
controller builds: the query is the part after the first `?`, split on
`&`, each segment split at its first `=`, keys and values
percent-decoded (with `+` as space).
-/

/-- Split a character list on a separator (keeping empty segments). -/
def splitOnChar (sep : Char) : List Char → List (List Char)
  | [] => [[]]
  | c :: rest =>
    let r := splitOnChar sep rest
    if c == sep then
      [] :: r
    else
      match r with
      | [] => [[c]]
      | h :: t => (c :: h) :: t

/-- Value of a hexadecimal digit character, if it is one. -/
def hexVal (c : Char) : Option Nat :=
  let n := c.toNat
  if 48 ≤ n && n ≤ 57 then some (n - 48)
  else if 65 ≤ n && n ≤ 70 then some (n - 55)
  else if 97 ≤ n && n ≤ 102 then some (n - 87)
  else none

/-- Percent-decoding of a query component, to bytes: `%XX` becomes its
byte, `+` a space, a malformed `%` stays literal, anything else its UTF-8
bytes. -/
def percentDecodeBytes : List Char → List Nat
  | [] => []
  | '%' :: a :: b :: rest =>
    match hexVal a, hexVal b with
    | some x, some y => (16 * x + y) :: percentDecodeBytes rest
    | _, _ => 37 :: percentDecodeBytes (a :: b :: rest)
  | '+' :: rest => 32 :: percentDecodeBytes rest
  | c :: rest => utf8Bytes c ++ percentDecodeBytes rest

/-- UTF-8 decoding, with a structural fuel (any fuel at least the length
of the list decodes it fully; each step consumes at least one byte). -/
def utf8DecodeAux : Nat → List Nat → List Char
  | 0, _ => []
  | _ + 1, [] => []
  | fuel + 1, b :: rest =>
    if b < 128 then Char.ofNat b :: utf8DecodeAux fuel rest
    else if b < 224 then
      match rest with
      | b2 :: rest2 => Char.ofNat ((b % 32) * 64 + b2 % 64) :: utf8DecodeAux fuel rest2
      | [] => []
    else if b < 240 then
      match rest with
      | b2 :: b3 :: rest3 =>
        Char.ofNat ((b % 16) * 4096 + (b2 % 64) * 64 + b3 % 64) :: utf8DecodeAux fuel rest3
      | _ => []
    else
      match rest with
      | b2 :: b3 :: b4 :: rest4 =>
        Char.ofNat ((b % 8) * 262144 + (b2 % 64) * 4096 + (b3 % 64) * 64 + b4 % 64)
          :: utf8DecodeAux fuel rest4
      | _ => []

/-- UTF-8 decoding of a byte list back to characters (inputs produced by
the encoder are always well formed; truncated tails decode to nothing). -/
def utf8Decode (bytes : List Nat) : List Char :=
  utf8DecodeAux bytes.length bytes

/-- Full decoding of one query component. -/
def decodeComponent (cs : List Char) : String :=
  String.mk (utf8Decode (percentDecodeBytes cs))

/-- `URLSearchParams` over a query string (no leading `?`): split on `&`,
skip empty segments, split each at its first `=`, decode key and value. -/
def parseSearchParams (query : String) : List (String × String) :=
  ((splitOnChar '&' query.data).filter (fun l => l ≠ [])).map (fun cs =>
    let k := cs.takeWhile (fun c => c ≠ '=')
    let rest := cs.dropWhile (fun c => c ≠ '=')
    (decodeComponent k,
     match rest with
     | [] => ""
     | _ :: v => decodeComponent v))

/-- `searchParams.get(key)`: first value under the key, else `null`. -/
def searchParamsGet (query key : String) : Option String :=
  ((parseSearchParams query).find? (fun p => p.fst == key)).map (fun p => p.snd)

/-- The query part of a URL: everything after the first `?` (empty when
there is none). -/
def queryOfUrl (url : String) : String :=
  match url.data.dropWhile (fun c => c ≠ '?') with
  | [] => ""
  | _ :: rest => String.mk rest

/-- The `ProxyRequest` the route's `GET` extracts from a request URL. -/
def proxyRequestOfUrl (url : String) : ProxyRequest :=
  ⟨searchParamsGet (queryOfUrl url) "apiUrl", searchParamsGet (queryOfUrl url) "path"⟩

/-!
## The search controller (`src/app/page.tsx`, `handleSearch`)

The input state is the five `useState` strings the handler reads; the
handler clears `results`/`error`/`debugUrl` and sets `loading`, builds
the mode-specific upstream path (throwing a validation `Error` when a
required field is empty after trimming, or the mode is unknown), fetches
`/api/artwork?path=<urlencoded path>`, and settles the state from the
response. We embed it as the list of state updates it performs, folded
over the previous UI state.
-/

/-- The controller's input state: search mode, free text, the one or two
artwork ids, and the upstream base URL field. The mode is a string — the
`<select>` yields strings and the `switch` has a `default` arm. -/
structure SearchInputs where
  apiUrl : String
  queryType : String
  searchQuery : String
  artworkId : String
  compareId : String

/-- The `switch (queryType)` of `handleSearch`: the built upstream path,
or the message of the validation `Error` it throws. -/
def buildPath (inp : SearchInputs) : Except String String :=
  if inp.queryType == "semantic" then
    if jsTrim inp.searchQuery == "" then
      Except.error "Search query is required"
    else
      Except.ok ("/ai/v1/artworks/search?q=" ++ encodeURIComponent (jsTrim inp.searchQuery))
  else if inp.queryType == "nearest_neighbor" then
    if jsTrim inp.artworkId == "" then
      Except.error "Artwork ID is required"
    else
      Except.ok ("/ai/v1/artworks/" ++ encodeURIComponent (jsTrim inp.artworkId)
        ++ "/nearest?limit=30")
  else if inp.queryType == "similarity" then
    if jsTrim inp.artworkId == "" || jsTrim inp.compareId == "" then
      Except.error "Both artwork IDs are required for similarity search"
    else
      Except.ok ("/ai/v1/artworks/" ++ encodeURIComponent (jsTrim inp.artworkId)
        ++ "/similarity/" ++ encodeURIComponent (jsTrim inp.compareId))
  else
    Except.error "Invalid search type"

/-- The URL the controller fetches:
`` `/api/artwork?path=${encodeURIComponent(apiPath)}` `` — note it
carries only `path`. -/
def controllerRequestUrl (apiPath : String) : String :=
  "/api/artwork?path=" ++ encodeURIComponent apiPath

/-- The message a non-ok proxy response produces, as a function of the
two property accesses in
`throw new Error(data.error || data.detail || 'Failed to fetch results')`,
evaluated left to right: a `TypeError` thrown by a property access
propagates to the same `catch` as the `new Error(...)` would, so its
message is surfaced instead; a truthy value is taken, passing through
`new Error(...)`'s string coercion; else the generic literal. -/
def messageSelect (errProp detailProp : Except String (Option Json)) : String :=
  match errProp with
  | Except.error msg => msg
  | Except.ok e =>
    if jsTruthyOpt e then jsString (e.getD Json.null)
    else
      match detailProp with
      | Except.error msg => msg
      | Except.ok d =>
        if jsTruthyOpt d then jsString (d.getD Json.null)
        else "Failed to fetch results"

/-- The selection applied to the body's two property accesses (the
`detail` access is never reached when the `error` access throws, and
cannot throw when that one did not — same `data`). -/
def errorMessageOfBody (data : Json) : String :=
  messageSelect (jsGetProp data "error") (jsGetProp data "detail")

/-- The UI state `handleSearch` touches. -/
structure UIState where
  results : Option Json
  error : Option String
  debugUrl : String
  loading : Bool

/-- One React state update performed by the handler. -/
inductive UIEvent where
  | setResults (v : Option Json)
  | setError (v : Option String)
  | setDebugUrl (s : String)
  | setLoading (b : Bool)

/-- Apply one state update. -/
def applyEvent (st : UIState) : UIEvent → UIState
  | UIEvent.setResults v => { st with results := v }
  | UIEvent.setError v => { st with error := v }
  | UIEvent.setDebugUrl s => { st with debugUrl := s }
  | UIEvent.setLoading b => { st with loading := b }

/-- Apply a sequence of state updates in order. -/
def applyEvents (st : UIState) (es : List UIEvent) : UIState :=
  es.foldl applyEvent st

/-- Outcome of the controller's `fetch('/api/artwork?...')` followed by
`response.json()`: the response parsed and was `ok`, it parsed and was
not ok, or the fetch / the parse threw an `Error` with some message. -/
inductive ControllerOutcome where
  | ok (body : Json)
  | notOk (body : Json)
  | threw (msg : String)

/-- The opening updates of every `handleSearch` invocation:
`setResults(null); setLoading(true); setError(null); setDebugUrl('')`. -/
def searchPrologue : List UIEvent :=
  [UIEvent.setResults none, UIEvent.setLoading true,
   UIEvent.setError none, UIEvent.setDebugUrl ""]

/-- The state updates one `handleSearch` invocation performs, and whether
it issued the network call. After the prologue: a validation failure is
caught, setting the error and (in `finally`) clearing `loading`; a built
path first sets the debug URL to `baseUrl + apiPath`, then the fetch
outcome either stores the parsed body in `results`, or throws — a non-ok
response as `Error(data.error || data.detail || 'Failed to fetch
results')`, where a `null` body makes the property access itself throw a
`TypeError` — landing in the same `catch`/`finally`, whose message
`errorMessageOfBody` captures. -/
def handleSearchTrace (inp : SearchInputs) (outcome : ControllerOutcome) :
    List UIEvent × Bool :=
  match buildPath inp with
  | Except.error msg =>
    (searchPrologue ++ [UIEvent.setError (some msg), UIEvent.setLoading false], false)
  | Except.ok apiPath =>
    let dbg := stripTrailingSlash inp.apiUrl ++ apiPath
    match outcome with
    | ControllerOutcome.ok body =>
      (searchPrologue ++ [UIEvent.setDebugUrl dbg,
        UIEvent.setResults (some body), UIEvent.setLoading false], true)
    | ControllerOutcome.notOk body =>
      (searchPrologue ++ [UIEvent.setDebugUrl dbg,
        UIEvent.setError (some (errorMessageOfBody body)), UIEvent.setLoading false], true)
    | ControllerOutcome.threw msg =>
      (searchPrologue ++ [UIEvent.setDebugUrl dbg,
        UIEvent.setError (some msg), UIEvent.setLoading false], true)

/-- One full `handleSearch` run over a previous UI state: the state after
applying every update, paired with whether the fetch was issued. -/
def handleSearch (inp : SearchInputs) (st : UIState) (outcome : ControllerOutcome) :
    UIState × Bool :=
  ((handleSearchTrace inp outcome).fst.foldl applyEvent st,
   (handleSearchTrace inp outcome).snd)

/-!
## Result rendering (`src/app/page.tsx`, the `{results && ...}` block)

The block renders nothing for a falsy `results`; otherwise it branches on
`'items' in results` alone: the item grid (reading `results.count` and
`results.items`) or the similarity-score list (mapping over
`results.similarity_scores`, a thrown `TypeError` when that is not an
array — and `'items' in v` itself throws on a primitive).
-/

/-- What the results block of the page renders. -/
inductive Rendered where
  | nothing
  | itemGrid (count : Option Json) (items : Option Json)
  | scoreList (scores : List Json)
  | renderError

/-- The render decision for the current `results` state (`none` is the
initial `null`). -/
def renderResults (results : Option Json) : Rendered :=
  match results with
  | none => Rendered.nothing
  | some data =>
    if jsTruthy data = false then Rendered.nothing
    else
      match data with
      | Json.obj fields =>
        if hasField fields "items" then
          Rendered.itemGrid (lookupField fields "count") (lookupField fields "items")
        else
          match lookupField fields "similarity_scores" with
          | some (Json.arr xs) => Rendered.scoreList xs
          | _ => Rendered.renderError
      | Json.arr _ => Rendered.renderError
      | _ => Rendered.renderError

/-- Whether a render decision chose the item-grid branch. -/
def Rendered.isItemGrid : Rendered → Bool
  | Rendered.itemGrid _ _ => true
  | _ => false

/-!
## The claims
-/

/-- C1: the claim says every controller-dispatched search reaches the
forwarder with both `{baseUrl, path}`, so it never trips the forwarder's
missing-`apiUrl` 400. The code disagrees: `handleSearch` builds
`` `/api/artwork?path=${encodeURIComponent(apiPath)}` `` — `path` only.
For the spec's own example (mode `semantic`, query `"cats"`) the built
path is `/ai/v1/artworks/search?q=cats`, the dispatched request URL is
`/api/artwork?path=%2Fai%2Fv1%2Fartworks%2Fsearch%3Fq%3Dcats`, the
forwarder's `searchParams.get('apiUrl')` is `null` while `path` decodes
back to the built path, and the forwarder answers 400
`API URL is required` without issuing any outbound call — whatever the
upstream would have answered. -/
theorem C1_controller_request_trips_missing_apiUrl :
    buildPath ⟨"https://api-test.artic.edu", "semantic", "cats", "", ""⟩
      = Except.ok "/ai/v1/artworks/search?q=cats"
  ∧ controllerRequestUrl "/ai/v1/artworks/search?q=cats"
      = "/api/artwork?path=%2Fai%2Fv1%2Fartworks%2Fsearch%3Fq%3Dcats"
  ∧ (proxyRequestOfUrl (controllerRequestUrl "/ai/v1/artworks/search?q=cats")).apiUrl = none
  ∧ (proxyRequestOfUrl (controllerRequestUrl "/ai/v1/artworks/search?q=cats")).path
      = some "/ai/v1/artworks/search?q=cats"
  ∧ ∀ upstream,
      routeGET (proxyRequestOfUrl (controllerRequestUrl "/ai/v1/artworks/search?q=cats")) upstream
        = ⟨400, Json.obj [("error", Json.str "API URL is required")], false⟩ :=
  ⟨rfl, rfl, rfl, rfl, fun _ => rfl⟩

/-- C2: the built upstream path is exactly the mode-specific template —
`semantic` with a non-empty trimmed query gives
`/ai/v1/artworks/search?q=<urlencoded trimmed query>`,
`nearest_neighbor` with a non-empty trimmed id gives
`/ai/v1/artworks/<urlencoded id>/nearest?limit=30`, and `similarity`
with both ids non-empty after trimming gives
`/ai/v1/artworks/<urlencoded id1>/similarity/<urlencoded id2>`;
concretely, query `"cats"` gives `/ai/v1/artworks/search?q=cats`,
id `"129884"` gives `/ai/v1/artworks/129884/nearest?limit=30`, and ids
`"1"`, `"2"` give `/ai/v1/artworks/1/similarity/2`. -/
theorem C2_built_paths (inp : SearchInputs) :
    (inp.queryType = "semantic" → jsTrim inp.searchQuery ≠ "" →
      buildPath inp = Except.ok
        ("/ai/v1/artworks/search?q=" ++ encodeURIComponent (jsTrim inp.searchQuery)))
  ∧ (inp.queryType = "nearest_neighbor" → jsTrim inp.artworkId ≠ "" →
      buildPath inp = Except.ok
        ("/ai/v1/artworks/" ++ encodeURIComponent (jsTrim inp.artworkId) ++ "/nearest?limit=30"))
  ∧ (inp.queryType = "similarity" → jsTrim inp.artworkId ≠ "" → jsTrim inp.compareId ≠ "" →
      buildPath inp = Except.ok
        ("/ai/v1/artworks/" ++ encodeURIComponent (jsTrim inp.artworkId)
          ++ "/similarity/" ++ encodeURIComponent (jsTrim inp.compareId)))
  ∧ buildPath ⟨"https://api-test.artic.edu", "semantic", "cats", "", ""⟩
      = Except.ok "/ai/v1/artworks/search?q=cats"
  ∧ buildPath ⟨"https://api-test.artic.edu", "nearest_neighbor", "", "129884", ""⟩
      = Except.ok "/ai/v1/artworks/129884/nearest?limit=30"
  ∧ buildPath ⟨"https://api-test.artic.edu", "similarity", "", "1", "2"⟩
      = Except.ok "/ai/v1/artworks/1/similarity/2" := by
  refine ⟨?_, ?_, ?_, rfl, rfl, rfl⟩
  · intro h1 h2
    simp [buildPath, h1, h2]
  · intro h1 h2
    simp [buildPath, h1, h2]
  · intro h1 h2 h3
    simp [buildPath, h1, h2, h3]

/-- C2 witness: the semantic arm of `C2_built_paths` applied to the
input state with query `"cats"`. -/
theorem C2_built_paths_witness :
    buildPath ⟨"https://api-test.artic.edu", "semantic", "cats", "", ""⟩
      = Except.ok ("/ai/v1/artworks/search?q=" ++ encodeURIComponent (jsTrim "cats")) :=
  (C2_built_paths ⟨"https://api-test.artic.edu", "semantic", "cats", "", ""⟩).1 rfl (by decide)

/-- C3: whenever a field required by the active mode is empty after
trimming, or the mode is none of `semantic`/`nearest_neighbor`/
`similarity`, the controller produces the corresponding validation error
(`Search query is required`, `Artwork ID is required`, `Both artwork IDs
are required for similarity search`, `Invalid search type`); and every
validation error means the handler issues no network call and surfaces
exactly that message. -/
theorem C3_validation (inp : SearchInputs) :
    (inp.queryType = "semantic" → jsTrim inp.searchQuery = "" →
      buildPath inp = Except.error "Search query is required")
  ∧ (inp.queryType = "nearest_neighbor" → jsTrim inp.artworkId = "" →
      buildPath inp = Except.error "Artwork ID is required")
  ∧ (inp.queryType = "similarity" →
      (jsTrim inp.artworkId = "" ∨ jsTrim inp.compareId = "") →
      buildPath inp = Except.error "Both artwork IDs are required for similarity search")
  ∧ (inp.queryType ≠ "semantic" → inp.queryType ≠ "nearest_neighbor" →
      inp.queryType ≠ "similarity" →
      buildPath inp = Except.error "Invalid search type")
  ∧ (∀ msg st outcome, buildPath inp = Except.error msg →
      (handleSearch inp st outcome).snd = false
      ∧ (handleSearch inp st outcome).fst.error = some msg) := by
  refine ⟨?_, ?_, ?_, ?_, ?_⟩
  · intro h1 h2
    simp [buildPath, h1, h2]
  · intro h1 h2
    simp [buildPath, h1, h2]
  · intro h1 h2
    rcases h2 with h2 | h2 <;> simp [buildPath, h1, h2]
  · intro h1 h2 h3
    simp [buildPath, h1, h2, h3]
  · intro msg st outcome h
    simp [handleSearch, handleSearchTrace, h, searchPrologue, applyEvent]

/-- C3 witness: a semantic search whose query is whitespace-only fails
validation with `Search query is required` and issues no network call. -/
theorem C3_validation_witness :
    buildPath ⟨"https://api-test.artic.edu", "semantic", "   ", "", ""⟩
      = Except.error "Search query is required"
  ∧ (handleSearch ⟨"https://api-test.artic.edu", "semantic", "   ", "", ""⟩
      ⟨some Json.null, none, "", false⟩ (ControllerOutcome.ok Json.null)).snd = false := by
  refine ⟨(C3_validation _).1 rfl (by decide), ?_⟩
  exact ((C3_validation _).2.2.2.2 "Search query is required" _ _
    ((C3_validation _).1 rfl (by decide))).1

/-- C4 counterexample: the claim says every inbound request that *has*
`path` but is missing `apiUrl` is answered 400 naming
`API URL is required`. A request carrying `path` with the empty value
and no `apiUrl` has `path`, yet the route's falsiness check treats it as
missing and answers 400 naming `Path is required` instead. -/
theorem C4_counterexample :
    routeGET ⟨none, some ""⟩ UpstreamOutcome.fetchFailure
      = ⟨400, Json.obj [("error", Json.str "Path is required")], false⟩
  ∧ "Path is required" ≠ "API URL is required" :=
  ⟨rfl, by decide⟩

/-- C4 (amended): every inbound request whose `path` is missing *or
empty* is answered 400 with an error payload naming `Path is required`
and no outbound call is issued; every request with a non-empty `path`
whose `apiUrl` is missing or empty is answered 400 naming
`API URL is required`, again with no outbound call. -/
theorem C4_missing_param_400 (req : ProxyRequest) (upstream : UpstreamOutcome) :
    ((req.path = none ∨ req.path = some "") →
      routeGET req upstream
        = ⟨400, Json.obj [("error", Json.str "Path is required")], false⟩)
  ∧ (∀ p, req.path = some p → p ≠ "" →
      (req.apiUrl = none ∨ req.apiUrl = some "") →
      routeGET req upstream
        = ⟨400, Json.obj [("error", Json.str "API URL is required")], false⟩) := by
  constructor
  · intro h
    rcases h with h | h <;> simp [routeGET, jsFalsyStr, h]
  · intro p hp hpne hapi
    rcases hapi with h | h <;> simp [routeGET, jsFalsyStr, hp, hpne, h]

/-- C4 witness: a request with a non-empty `path` and no `apiUrl` is
answered 400 `API URL is required` with no outbound call. -/
theorem C4_missing_param_400_witness :
    routeGET ⟨none, some "/ai/v1/artworks/search?q=cats"⟩ UpstreamOutcome.fetchFailure
      = ⟨400, Json.obj [("error", Json.str "API URL is required")], false⟩ :=
  (C4_missing_param_400 ⟨none, some "/ai/v1/artworks/search?q=cats"⟩
    UpstreamOutcome.fetchFailure).2 _ rfl (by decide) (Or.inl rfl)

/-- C5: when both parameters pass the route's checks and the upstream
response has a non-2xx status with a JSON-parsable body, the route's
response carries the upstream status code unchanged and the upstream
body unchanged (and the outbound call was issued). -/
theorem C5_relay_non2xx (req : ProxyRequest) (status : Nat) (body : Json)
    (hpath : jsFalsyStr req.path = false) (hapi : jsFalsyStr req.apiUrl = false)
    (hstatus : responseOk status = false) :
    routeGET req (UpstreamOutcome.success status body) = ⟨status, body, true⟩ := by
  simp [routeGET, hpath, hapi, hstatus]

/-- C5 witness: an upstream 404 with a JSON error body is relayed as a
404 with the same body. -/
theorem C5_relay_non2xx_witness :
    routeGET ⟨some "https://api-test.artic.edu", some "/ai/v1/artworks/search?q=cats"⟩
        (UpstreamOutcome.success 404 (Json.obj [("error", Json.str "Not found")]))
      = ⟨404, Json.obj [("error", Json.str "Not found")], true⟩ :=
  C5_relay_non2xx _ 404 _ (by decide) (by decide) (by decide)

/-- C6: whenever the outbound fetch or the JSON parse of the upstream
body throws, the route answers status 500 with the fixed payload
`{error: "Failed to fetch results"}`; `routeGET` being a total function
of the request and the outcome is the model-level statement that no
exception escapes the handler. -/
theorem C6_catch_to_500 (req : ProxyRequest) (upstream : UpstreamOutcome)
    (hpath : jsFalsyStr req.path = false) (hapi : jsFalsyStr req.apiUrl = false)
    (hthrew : upstream = UpstreamOutcome.fetchFailure
      ∨ ∃ s, upstream = UpstreamOutcome.parseFailure s) :
    routeGET req upstream
      = ⟨500, Json.obj [("error", Json.str "Failed to fetch results")], true⟩ := by
  rcases hthrew with h | ⟨s, h⟩ <;> subst h <;> simp [routeGET, hpath, hapi]

/-- C6 witness: a throwing outbound fetch yields the fixed 500 payload. -/
theorem C6_catch_to_500_witness :
    routeGET ⟨some "https://api-test.artic.edu", some "/ai/v1/artworks/search?q=cats"⟩
        UpstreamOutcome.fetchFailure
      = ⟨500, Json.obj [("error", Json.str "Failed to fetch results")], true⟩ :=
  C6_catch_to_500 _ _ (by decide) (by decide) (Or.inl rfl)

/-- The grid-vs-scores branch taken by the results block of the page is
exactly the presence of the `items` key. -/
lemma isItemGrid_renderResults_obj (fields : List (String × Json)) :
    (renderResults (some (Json.obj fields))).isItemGrid = hasField fields "items" := by
  by_cases h : hasField fields "items"
  · simp [renderResults, jsTruthy, h, Rendered.isItemGrid]
  · simp only [Bool.not_eq_true] at h
    rcases hs : lookupField fields "similarity_scores" with _ | v
    · simp [renderResults, jsTruthy, h, hs, Rendered.isItemGrid]
    · cases v <;> simp [renderResults, jsTruthy, h, hs, Rendered.isItemGrid]

/-- C7: rendering of a successful object payload is discriminated solely
by presence of the `items` key — a payload containing `items` renders as
the item grid, a payload without `items` but whose `similarity_scores`
is an array renders as the score list, and two payloads agreeing on
`items`-presence always take the same branch, whatever their other
fields. -/
theorem C7_render_discrimination (fields : List (String × Json)) :
    (hasField fields "items" = true →
      renderResults (some (Json.obj fields))
        = Rendered.itemGrid (lookupField fields "count") (lookupField fields "items"))
  ∧ (hasField fields "items" = false →
      ∀ xs, lookupField fields "similarity_scores" = some (Json.arr xs) →
        renderResults (some (Json.obj fields)) = Rendered.scoreList xs)
  ∧ (∀ g : List (String × Json), hasField fields "items" = hasField g "items" →
      (renderResults (some (Json.obj fields))).isItemGrid
        = (renderResults (some (Json.obj g))).isItemGrid) := by
  refine ⟨?_, ?_, ?_⟩
  · intro h
    simp [renderResults, jsTruthy, h]
  · intro h xs hs
    simp [renderResults, jsTruthy, h, hs]
  · intro g hg
    rw [isItemGrid_renderResults_obj, isItemGrid_renderResults_obj, hg]

/-- C7 witness: a list-shaped payload renders as the item grid and a
scores-shaped payload renders as the score list. -/
theorem C7_render_discrimination_witness :
    renderResults (some (Json.obj
        [("count", Json.num 1), ("items", Json.arr []), ("total", Json.num 1)]))
      = Rendered.itemGrid (some (Json.num 1)) (some (Json.arr []))
  ∧ renderResults (some (Json.obj [("similarity_scores", Json.arr [])]))
      = Rendered.scoreList [] := by
  constructor
  · exact (C7_render_discrimination _).1 rfl
  · exact (C7_render_discrimination [("similarity_scores", Json.arr [])]).2.1 rfl [] rfl

/-- C8 counterexample: the claim says a non-ok body with neither a
non-empty `error` nor a non-empty `detail` field surfaces the generic
`Failed to fetch results`. A non-ok response whose JSON body is literal
`null` is such a body (it has no fields at all) and is reachable — the
route relays a non-2xx upstream `null` body verbatim — yet `data.error`
itself throws a `TypeError`, and the catch surfaces *its* message, not
the generic one. -/
theorem C8_counterexample :
    (handleSearch ⟨"https://api-test.artic.edu", "semantic", "cats", "", ""⟩
        ⟨none, none, "", false⟩ (ControllerOutcome.notOk Json.null)).fst.error
      = some "Cannot read properties of null (reading 'error')"
  ∧ "Cannot read properties of null (reading 'error')" ≠ "Failed to fetch results" :=
  ⟨rfl, by decide⟩

/-- C8 (amended): for a non-ok proxy response whose body is not JSON
`null`, the user-visible message is the body's `error` field when it is
a non-empty string, else the `detail` field when that is a non-empty
string, else the generic `Failed to fetch results`; for a non-ok
response with a `null` body the property access itself throws, and the
surfaced message is that `TypeError`'s. The handler stores the message
in the single `error` state string with `results` left cleared, and a
validation error is surfaced through the very same string. -/
theorem C8_error_message (body : Json) (inp : SearchInputs) (st : UIState)
    (apiPath : String) (hbuild : buildPath inp = Except.ok apiPath) :
    ((∀ s, jsGetProp body "error" = Except.ok (some (Json.str s)) → s ≠ "" →
        errorMessageOfBody body = s)
  ∧ (∀ e s, jsGetProp body "error" = Except.ok e → jsTruthyOpt e = false →
        jsGetProp body "detail" = Except.ok (some (Json.str s)) → s ≠ "" →
        errorMessageOfBody body = s)
  ∧ (∀ e d, jsGetProp body "error" = Except.ok e → jsTruthyOpt e = false →
        jsGetProp body "detail" = Except.ok d → jsTruthyOpt d = false →
        errorMessageOfBody body = "Failed to fetch results")
  ∧ (∀ msg, jsGetProp body "error" = Except.error msg →
        errorMessageOfBody body = msg))
  ∧ (handleSearch inp st (ControllerOutcome.notOk body)).fst.error
      = some (errorMessageOfBody body)
  ∧ (handleSearch inp st (ControllerOutcome.notOk body)).fst.results = none
  ∧ (∀ inp2 msg (st2 : UIState) o2, buildPath inp2 = Except.error msg →
      (handleSearch inp2 st2 o2).fst.error = some msg) := by
  refine ⟨⟨?_, ?_, ?_, ?_⟩, ?_, ?_, ?_⟩
  · intro s h hs
    simp only [errorMessageOfBody]
    rw [h]
    simp [messageSelect, jsTruthyOpt, jsTruthy, hs, jsString]
  · intro e s he het h hs
    simp only [errorMessageOfBody]
    rw [he, h]
    simp only [messageSelect]
    rw [het]
    simp [jsTruthyOpt, jsTruthy, hs, jsString]
  · intro e d he het hd hdt
    simp only [errorMessageOfBody]
    rw [he, hd]
    simp only [messageSelect]
    rw [het]
    simp [hdt]
  · intro msg h
    simp only [errorMessageOfBody]
    rw [h]
    simp [messageSelect]
  · simp [handleSearch, handleSearchTrace, hbuild, searchPrologue, applyEvent]
  · simp [handleSearch, handleSearchTrace, hbuild, searchPrologue, applyEvent]
  · intro inp2 msg st2 o2 h
    simp [handleSearch, handleSearchTrace, h, searchPrologue, applyEvent]

/-- C8 witness: a 400-style object body whose only message field is
`detail` surfaces that `detail` value as the error string. -/
theorem C8_error_message_witness :
    (handleSearch ⟨"https://api-test.artic.edu", "semantic", "cats", "", ""⟩
        ⟨none, none, "", false⟩
        (ControllerOutcome.notOk
          (Json.obj [("detail", Json.str "No query provided")]))).fst.error
      = some (errorMessageOfBody (Json.obj [("detail", Json.str "No query provided")]))
  ∧ errorMessageOfBody (Json.obj [("detail", Json.str "No query provided")])
      = "No query provided" := by
  refine ⟨(C8_error_message (Json.obj [("detail", Json.str "No query provided")])
    ⟨"https://api-test.artic.edu", "semantic", "cats", "", ""⟩ ⟨none, none, "", false⟩
    "/ai/v1/artworks/search?q=cats" rfl).2.1, ?_⟩
  exact (C8_error_message (Json.obj [("detail", Json.str "No query provided")])
    ⟨"https://api-test.artic.edu", "semantic", "cats", "", ""⟩ ⟨none, none, "", false⟩
    "/ai/v1/artworks/search?q=cats" rfl).1.2.1 none "No query provided" rfl rfl rfl
    (by decide)

/-- C9: when both parameters pass the route's checks and the upstream
status is ok (2xx), the route answers with HTTP status 200 regardless of
the exact upstream code — `NextResponse.json(data)` takes its default
status — and only non-2xx statuses are passed through. -/
theorem C9_ok_statuses_map_to_200 (req : ProxyRequest) (status : Nat) (body : Json)
    (hpath : jsFalsyStr req.path = false) (hapi : jsFalsyStr req.apiUrl = false)
    (hok : responseOk status = true) :
    routeGET req (UpstreamOutcome.success status body) = ⟨200, body, true⟩ := by
  simp [routeGET, hpath, hapi, hok]

/-- C9 witness: an upstream 201 is answered as a 200 with the same body. -/
theorem C9_ok_statuses_map_to_200_witness :
    routeGET ⟨some "https://api-test.artic.edu", some "/ai/v1/artworks/search?q=cats"⟩
        (UpstreamOutcome.success 201 (Json.obj [("count", Json.num 0)]))
      = ⟨200, Json.obj [("count", Json.num 0)], true⟩ :=
  C9_ok_statuses_map_to_200 _ 201 _ (by decide) (by decide) (by decide)

/-- C10: every `handleSearch` invocation begins with the four clearing
updates (`results`/`loading`/`error`/`debugUrl`) before validating, so
the final state never depends on the previous one; after any completion
at most one of `results` and `error` is non-null; and a search that
fails validation has already discarded the previously displayed results
and debug URL. -/
theorem C10_state_reset (inp : SearchInputs) (st : UIState) (outcome : ControllerOutcome) :
    ((handleSearchTrace inp outcome).fst.take 4 = searchPrologue)
  ∧ (handleSearch inp st outcome).fst = (handleSearch inp ⟨none, none, "", false⟩ outcome).fst
  ∧ ((handleSearch inp st outcome).fst.results = none
      ∨ (handleSearch inp st outcome).fst.error = none)
  ∧ (∀ msg, buildPath inp = Except.error msg →
      (handleSearch inp st outcome).fst.results = none
      ∧ (handleSearch inp st outcome).fst.debugUrl = "") := by
  rcases h : buildPath inp with msg | apiPath <;> cases outcome <;>
    simp [handleSearch, handleSearchTrace, h, searchPrologue, applyEvent]

/-- C10 witness: a validation-failing search run over a state that still
displays old results, an old error and an old debug URL ends with
`results` cleared. -/
theorem C10_state_reset_witness :
    (handleSearch ⟨"https://api-test.artic.edu", "semantic", "", "", ""⟩
        ⟨some (Json.obj [("items", Json.arr [])]), some "old error", "old url", true⟩
        (ControllerOutcome.ok Json.null)).fst.results = none :=
  ((C10_state_reset ⟨"https://api-test.artic.edu", "semantic", "", "", ""⟩
    ⟨some (Json.obj [("items", Json.arr [])]), some "old error", "old url", true⟩
    (ControllerOutcome.ok Json.null)).2.2.2 "Search query is required" rfl).1
